import Mathlib

/-!
Shallow embedding of the Task-Management-Clean-Architecture repository
(Go, MongoDB backend) for checking its natural-language specification.

Embedded source files:
 - `Repositories` package (task and user MongoDB repositories),
 - `Infrastructure/password_service.go` (bcrypt wrapper),
 - `Delivery` controllers (login response shape, task controllers).

The MongoDB collaborator (collections, `InsertOne`, `DeleteOne`,
`FindOneAndUpdate`, unique indexes, `primitive.ObjectID`) is modelled as
an explicit list-based store with the contract the code relies on.
-/

namespace TaskMgmt

/-- Model of `primitive.ObjectID` (a 12-byte MongoDB id) as a natural
number; the zero value (`primitive.NilObjectID`) is `0`. -/
abbrev ObjectID := Nat

/-- Model of `ObjectID.IsZero`: the id equals the zero value. -/
def ObjectID.isZero (o : ObjectID) : Bool := o == 0

/-- Hexadecimal digit test, as accepted by Go's `primitive.ObjectIDFromHex`
(which hex-decodes the string). -/
def isHexDigit (c : Char) : Bool :=
  c.isDigit || ('a' ≤ c && c ≤ 'f') || ('A' ≤ c && c ≤ 'F')

/-- Numeric value of a hex digit. -/
def hexVal (c : Char) : Nat :=
  if c.isDigit then c.toNat - '0'.toNat
  else if 'a' ≤ c && c ≤ 'f' then c.toNat - 'a'.toNat + 10
  else c.toNat - 'A'.toNat + 10

/-- Model of `primitive.ObjectIDFromHex`: succeeds exactly on 24-character
hex strings, yielding the decoded id; fails otherwise. -/
def ObjectIDFromHex (s : String) : Option ObjectID :=
  if s.length == 24 && s.toList.all isHexDigit then
    some (s.toList.foldl (fun acc c => acc * 16 + hexVal c) 0)
  else
    none

/-- Model of `domain.Task`. `DueDate` is a `time.Time`; we model the
instant as a `Nat` whose `IsZero` test is equality with `0`. -/
structure Task where
  id : ObjectID
  title : String
  description : String
  dueDate : Nat
  status : String
deriving DecidableEq, Repr

/-- The error values the embedded code can return (`domain.ErrInvalidTaskID`,
`domain.ErrTaskNotFound`, the ad hoc `errors.New("no valid fields provided
for update")`, `domain.ErrUserExists`, `domain.ErrUserNotFound`). -/
inductive Err where
  | invalidTaskID
  | taskNotFound
  | noFieldsProvided
  | userExists
  | userNotFound
  | invalidStatus
deriving DecidableEq, Repr

/-- The MongoDB `tasks` collection, modelled as the list of stored
documents in insertion order. -/
structure TaskCollection where
  docs : List Task
deriving DecidableEq, Repr

/-- The `bson.M` update document built by `UpdateTask` under `"$set"`:
each field is present (`some`) exactly when the repository added it. -/
structure TaskSetFields where
  title : Option String
  description : Option String
  dueDate : Option Nat
  status : Option String
deriving DecidableEq, Repr

/-- `len(setFields) == 0`: no field was added to the `$set` document. -/
def TaskSetFields.isEmpty (s : TaskSetFields) : Bool :=
  s.title == none && s.description == none && s.dueDate == none && s.status == none

/-- MongoDB applying a `$set` document to a stored task document. -/
def applySet (s : TaskSetFields) (t : Task) : Task :=
  { t with
    title := s.title.getD t.title
    description := s.description.getD t.description
    dueDate := s.dueDate.getD t.dueDate
    status := s.status.getD t.status }

/-- The `$set` document `UpdateTask` builds from its `taskUpdate` argument:
a field is included exactly when it is non-empty (strings) or non-zero
(`DueDate`), mirroring the four `if` statements in the source. -/
def buildSetFields (taskUpdate : Task) : TaskSetFields :=
  { title := if taskUpdate.title ≠ "" then some taskUpdate.title else none
    description := if taskUpdate.description ≠ "" then some taskUpdate.description else none
    dueDate := if taskUpdate.dueDate ≠ 0 then some taskUpdate.dueDate else none
    status := if taskUpdate.status ≠ "" then some taskUpdate.status else none }

/-- MongoDB `FindOne` on `{"_id": oid}`: the first stored document whose
id matches (ids are unique in a real collection, so "first" is "the"). -/
def findDoc (docs : List Task) (oid : ObjectID) : Option Task :=
  docs.find? (fun t => t.id == oid)

/-- MongoDB `DeleteOne` on `{"_id": oid}`: removes the first matching
document and reports how many documents were deleted (0 or 1). -/
def deleteDoc : List Task → ObjectID → List Task × Nat
  | [], _ => ([], 0)
  | t :: ts, oid =>
    if t.id == oid then (ts, 1)
    else
      let (rest, n) := deleteDoc ts oid
      (t :: rest, n)

/-- MongoDB `FindOneAndUpdate` on `{"_id": oid}` with `ReturnDocument(After)`:
updates the first matching document in place and returns the post-update
document, or `none` (`mongo.ErrNoDocuments`) when no document matches. -/
def updateDoc : List Task → ObjectID → TaskSetFields → Option (List Task × Task)
  | [], _, _ => none
  | t :: ts, oid, s =>
    if t.id == oid then some (applySet s t :: ts, applySet s t)
    else
      match updateDoc ts oid s with
      | none => none
      | some (rest, u) => some (t :: rest, u)

/-- `taskRepository.CreateTask`: overwrites `task.ID` with a fresh
`primitive.NewObjectID()` (the generated id is passed in as `freshID`,
since the generator is an external source of randomness), inserts the
document, and returns the stored task. -/
def CreateTask (col : TaskCollection) (freshID : ObjectID) (task : Task) :
    TaskCollection × Task :=
  let t := { task with id := freshID }
  ({ docs := col.docs ++ [t] }, t)

/-- `taskRepository.DeleteTask`: converts the hex id (failing with
`ErrInvalidTaskID`), runs `DeleteOne`, and reports `ErrTaskNotFound` when
zero documents were deleted. -/
def DeleteTask (col : TaskCollection) (taskID : String) :
    TaskCollection × Option Err :=
  match ObjectIDFromHex taskID with
  | none => (col, some .invalidTaskID)
  | some objID =>
    let (docs2, deletedCount) := deleteDoc col.docs objID
    if deletedCount == 0 then ({ docs := docs2 }, some .taskNotFound)
    else ({ docs := docs2 }, none)

/-- A Go slice of tasks: `nil` (`none`) or a non-nil slice. `cursor.All`
into a `nil`-initialised slice leaves it `nil` when the collection holds
no documents. -/
def goSliceOfDocs (docs : List Task) : Option (List Task) :=
  if docs.isEmpty then none else some docs

/-- `taskRepository.GetAllTasks`: reads every document; if the resulting
slice is `nil` it returns the literal empty slice `[]domain.Task{}`. -/
def GetAllTasks (col : TaskCollection) : List Task :=
  match goSliceOfDocs col.docs with
  | none => []
  | some allTasks => allTasks

/-- `taskRepository.GetTaskByID`: converts the hex id (failing with
`ErrInvalidTaskID`), then `FindOne`, failing with `ErrTaskNotFound` when
no document matches. -/
def GetTaskByID (col : TaskCollection) (taskID : String) : Except Err Task :=
  match ObjectIDFromHex taskID with
  | none => .error .invalidTaskID
  | some objID =>
    match findDoc col.docs objID with
    | none => .error .taskNotFound
    | some t => .ok t

/-- `taskRepository.UpdateTask`: converts the hex id (failing with
`ErrInvalidTaskID`), builds the `$set` document from the non-empty fields,
fails with the "no valid fields provided for update" error when that
document is empty, otherwise runs `FindOneAndUpdate` returning the
post-update document, mapping `mongo.ErrNoDocuments` to `ErrTaskNotFound`. -/
def UpdateTask (col : TaskCollection) (taskID : String) (taskUpdate : Task) :
    TaskCollection × Except Err Task :=
  match ObjectIDFromHex taskID with
  | none => (col, .error .invalidTaskID)
  | some objID =>
    let setFields := buildSetFields taskUpdate
    if setFields.isEmpty then (col, .error .noFieldsProvided)
    else
      match updateDoc col.docs objID setFields with
      | none => (col, .error .taskNotFound)
      | some (docs2, updatedTask) => ({ docs := docs2 }, .ok updatedTask)

/-- Model of `domain.User`. The `Domain` package itself is outside the
provided sources; the field shape follows its uses in the repositories
and controllers (`user.ID`, `user.Username`, `user.Password`, `user.Role`)
and the spec data model. `password` holds the stored bcrypt hash. -/
structure User where
  id : ObjectID
  username : String
  password : String
  role : String
deriving DecidableEq, Repr

/-- The MongoDB `users` collection, modelled as the list of stored
documents in insertion order. Per the spec's storage contract, the
collection enforces uniqueness of `_id` (always, in MongoDB) and of
`username` (a unique index), surfacing violations as a duplicate-key
error on insert. -/
structure UserCollection where
  docs : List User
deriving DecidableEq, Repr

/-- Whether inserting `u` violates a unique index of the `users`
collection (duplicate `_id` or duplicate `username`). -/
def dupKey (docs : List User) (u : User) : Bool :=
  docs.any (fun v => v.id == u.id || v.username == u.username)

/-- `userRepository.CreateUser`: generates a fresh `ObjectID` only when
`user.ID.IsZero()` (the generated id is passed in as `freshID`), then
`InsertOne`; a duplicate-key error (`mongo.IsDuplicateKeyError`) becomes
`domain.ErrUserExists`. -/
def CreateUser (col : UserCollection) (freshID : ObjectID) (user : User) :
    UserCollection × Option Err :=
  let u := if user.id.isZero then { user with id := freshID } else user
  if dupKey col.docs u then (col, some .userExists)
  else ({ docs := col.docs ++ [u] }, none)

/-- `userRepository.GetByUsername`: `FindOne` on `{"username": name}`,
mapping `mongo.ErrNoDocuments` to `domain.ErrUserNotFound`. -/
def GetByUsername (col : UserCollection) (username : String) : Except Err User :=
  match col.docs.find? (fun v => v.username == username) with
  | none => .error .userNotFound
  | some u => .ok u

/-!
### Credential hasher (`Infrastructure/password_service.go`)

The service wraps `golang.org/x/crypto/bcrypt`. The bcrypt library is an
external collaborator (its source is not part of this repository), so its
key derivation is abstracted as a parameter `kdf : String → String → String`
taking the salt and the plaintext; the hash-string layout and the
success/failure plumbing follow the library's documented contract:
`GenerateFromPassword` emits a parsable hash embedding the salt and the
derived digest, and `CompareHashAndPassword` returns `nil` exactly when
the stored hash parses and its digest matches the one re-derived from the
supplied plaintext, returning an error (never panicking) on mismatch or
on a malformed hash.
-/

/-- Split a character list at every `'$'` separator (the field separator
of the bcrypt hash layout). -/
def splitDollar : List Char → List (List Char)
  | [] => [[]]
  | c :: cs =>
    match splitDollar cs with
    | [] => [[c]]
    | r :: rs => if c = '$' then [] :: r :: rs else (c :: r) :: rs

/-- Parse a bcrypt hash string `"$2a$10$salt$digest"` into its salt and
digest; `none` models `bcrypt`'s `ErrHashTooShort` / malformed-hash errors. -/
def bcryptParse (hashed : String) : Option (String × String) :=
  match (splitDollar hashed.toList).map List.asString with
  | ["", "2a", "10", salt, digest] => some (salt, digest)
  | _ => none

/-- Model of `bcrypt.GenerateFromPassword`: emits the hash string
embedding the (random, externally supplied) salt and the digest derived
from salt and plaintext by the key-derivation function. -/
def bcryptGenerate (kdf : String → String → String) (salt password : String) :
    String :=
  "$2a$10$" ++ salt ++ "$" ++ kdf salt password

/-- Model of `bcrypt.CompareHashAndPassword`: `none` means the Go call
returned `nil` (match); `some ()` models any returned error (malformed
hash, or digest mismatch). -/
def bcryptCompare (kdf : String → String → String) (hashed plain : String) :
    Option Unit :=
  match bcryptParse hashed with
  | none => some ()
  | some (salt, digest) => if kdf salt plain == digest then none else some ()

/-- `passwordService.HashPassword`: delegates to
`bcrypt.GenerateFromPassword` with the default cost. -/
def HashPassword (kdf : String → String → String) (salt password : String) :
    String :=
  bcryptGenerate kdf salt password

/-- `passwordService.CheckPassword`: true exactly when
`bcrypt.CompareHashAndPassword` returned `nil`; any error (mismatch or
malformed hash) yields `false` rather than propagating. -/
def CheckPassword (kdf : String → String → String) (hashed plain : String) :
    Bool :=
  bcryptCompare kdf hashed plain == none

/-!
### Delivery layer (`Delivery` controllers)
-/

/-- The `"user"` object the `Login` controller serialises in its success
response: exactly the three keys `id`, `username`, `role`. -/
structure LoginUserView where
  id : ObjectID
  username : String
  role : String
deriving DecidableEq, Repr

/-- `UserController.Login`, success branch: the sanitized user view built
from the user record the use case returned (`gin.H` with keys `id`,
`username`, `role`; the password hash is not among them). -/
def loginResponseUser (user : User) : LoginUserView :=
  { id := user.id, username := user.username, role := user.role }

/-- The full success payload of `UserController.Login`: the token and the
sanitized user view. -/
def loginResponse (token : String) (user : User) : String × LoginUserView :=
  (token, loginResponseUser user)

/-- The three allowed task status values of the spec data model. -/
def validStatus (s : String) : Bool :=
  s == "pending" || s == "in_progress" || s == "completed"

/-- Modelled from the spec: the `Usecases` layer (`TaskUseCase.CreateTask`)
is not among the provided sources; per the spec it "validates `status` is
one of the three allowed values if provided" and otherwise delegates to
the repository, returning the stored form. -/
def UseCaseCreateTask (col : TaskCollection) (freshID : ObjectID) (task : Task) :
    TaskCollection × Except Err Task :=
  if task.status ≠ "" && !validStatus task.status then
    (col, .error .invalidStatus)
  else
    let (col2, created) := CreateTask col freshID task
    (col2, .ok created)

/-- The merged record as the spec describes the partial-update semantics:
each stored field is overwritten exactly when the corresponding update
field is non-empty (strings) or non-zero (`dueDate`); the identity is
untouched. Stated from the spec wording, to be compared with what the
embedded `UpdateTask` actually produces. -/
def specMerge (stored upd : Task) : Task :=
  { id := stored.id
    title := if upd.title = "" then stored.title else upd.title
    description := if upd.description = "" then stored.description else upd.description
    dueDate := if upd.dueDate = 0 then stored.dueDate else upd.dueDate
    status := if upd.status = "" then stored.status else upd.status }

/-!
### Helper lemmas
-/

theorem applySet_buildSetFields (t u : Task) :
    applySet (buildSetFields u) t = specMerge t u := by
  unfold applySet buildSetFields specMerge
  by_cases h1 : u.title = "" <;> by_cases h2 : u.description = "" <;>
    by_cases h3 : u.dueDate = 0 <;> by_cases h4 : u.status = "" <;>
    simp [h1, h2, h3, h4]

theorem applySet_id (s : TaskSetFields) (t : Task) :
    (applySet s t).id = t.id := rfl

theorem updateDoc_of_findDoc (docs : List Task) (oid : ObjectID)
    (s : TaskSetFields) (t : Task) (h : findDoc docs oid = some t) :
    ∃ docs2, updateDoc docs oid s = some (docs2, applySet s t) ∧
      findDoc docs2 oid = some (applySet s t) := by
  induction docs with
  | nil => simp [findDoc] at h
  | cons a as ih =>
    by_cases hid : (a.id == oid) = true
    · have ha : a = t := by
        have h0 := h
        unfold findDoc at h0
        rw [List.find?_cons_of_pos (p := fun x : Task => x.id == oid) _ hid] at h0
        exact Option.some.inj h0
      subst ha
      refine ⟨applySet s a :: as, ?_, ?_⟩
      · simp [updateDoc, hid]
      · have hid2 : ((applySet s a).id == oid) = true := by
          simpa [applySet_id] using hid
        unfold findDoc
        rw [List.find?_cons_of_pos (p := fun x : Task => x.id == oid) _ hid2]
    · have h' : findDoc as oid = some t := by
        have h0 := h
        unfold findDoc at h0 ⊢
        rwa [List.find?_cons_of_neg (p := fun x : Task => x.id == oid) _ hid] at h0
      obtain ⟨docs2, h1, h2⟩ := ih h'
      refine ⟨a :: docs2, ?_, ?_⟩
      · simp [updateDoc, hid, h1]
      · unfold findDoc at h2 ⊢
        rwa [List.find?_cons_of_neg (p := fun x : Task => x.id == oid) _ hid]

theorem deleteDoc_no_match (docs : List Task) (oid : ObjectID)
    (h : ∀ t ∈ docs, t.id ≠ oid) : deleteDoc docs oid = (docs, 0) := by
  induction docs with
  | nil => rfl
  | cons a as ih =>
    have ha : (a.id == oid) = false := by
      simpa using h a (List.mem_cons_self a as)
    have ih2 := ih (fun t ht => h t (List.mem_cons_of_mem a ht))
    simp [deleteDoc, ha, ih2]

theorem findDoc_deleteDoc (docs : List Task) (oid : ObjectID)
    (h : (docs.map Task.id).Nodup) :
    findDoc (deleteDoc docs oid).1 oid = none := by
  induction docs with
  | nil => rfl
  | cons a as ih =>
    have hmap : (a.id :: as.map Task.id).Nodup := by simpa using h
    have hnotin : a.id ∉ as.map Task.id := (List.nodup_cons.mp hmap).1
    have htail : (as.map Task.id).Nodup := (List.nodup_cons.mp hmap).2
    by_cases hid : (a.id == oid) = true
    · have hoid : a.id = oid := by simpa using hid
      have hall : ∀ t ∈ as, ¬(t.id == oid) = true := by
        intro t ht hteq
        refine hnotin (List.mem_map.mpr ⟨t, ht, ?_⟩)
        have : t.id = oid := by simpa using hteq
        rw [this, hoid]
      have hrest : findDoc as oid = none := by
        unfold findDoc
        exact List.find?_eq_none.mpr hall
      simp [deleteDoc, hid, hrest]
    · have ih2 := ih htail
      rcases hdd : deleteDoc as oid with ⟨rest, n⟩
      rw [hdd] at ih2
      have hstep : deleteDoc (a :: as) oid = (a :: rest, n) := by
        simp [deleteDoc, hid, hdd]
      rw [hstep]
      unfold findDoc at ih2 ⊢
      show List.find? (fun x : Task => x.id == oid) (a :: rest) = none
      rw [List.find?_cons_of_neg (p := fun x : Task => x.id == oid) _ hid]
      exact ih2

/-!
### Claim theorems
-/

/-- C6: `GetAll` on a store containing no tasks returns an empty sequence
of tasks, never a null/absent value (the repository maps the `nil` Go
slice to the literal empty slice; the result is always an actual
sequence, equal to the stored documents). -/
theorem getAllTasks_empty_store :
    GetAllTasks { docs := [] } = ([] : List Task) ∧
    ∀ col : TaskCollection, GetAllTasks col = col.docs := by
  constructor
  · rfl
  · intro col
    unfold GetAllTasks goSliceOfDocs
    by_cases h : col.docs.isEmpty
    · simp [h, List.isEmpty_iff.mp h]
    · simp [h]

/-- C8: the success response of `Login` exposes exactly the user's id,
username and role; the stored password hash does not influence (and is
absent from) the returned view. -/
theorem login_response_sanitized (token : String) (user : User) :
    loginResponse token user =
      (token, { id := user.id, username := user.username, role := user.role }) ∧
    ∀ hash : String,
      loginResponseUser { user with password := hash } = loginResponseUser user := by
  exact ⟨rfl, fun _ => rfl⟩

/-- C2 counterexample: the claim quantifies over every id, but on a
malformed id (here `"zz"`) an all-empty update fails with `InvalidTaskID`,
not `NoFieldsProvided`. -/
theorem updateTask_empty_malformed_counterexample :
    (UpdateTask { docs := [] } "zz"
        { id := 0, title := "", description := "", dueDate := 0, status := "" }).2 =
      .error .invalidTaskID ∧
    Err.invalidTaskID ≠ Err.noFieldsProvided := by
  exact ⟨rfl, by decide⟩

/-- C2 (amended): for every well-formed id, an update whose four updatable
fields are all empty/zero fails with `NoFieldsProvided` and leaves the
whole store unchanged. -/
theorem updateTask_empty_fields_error (col : TaskCollection) (taskID : String)
    (oid : ObjectID) (taskUpdate : Task)
    (hhex : ObjectIDFromHex taskID = some oid)
    (ht : taskUpdate.title = "") (hd : taskUpdate.description = "")
    (hdd : taskUpdate.dueDate = 0) (hs : taskUpdate.status = "") :
    UpdateTask col taskID taskUpdate = (col, .error .noFieldsProvided) := by
  simp [UpdateTask, hhex, buildSetFields, TaskSetFields.isEmpty, ht, hd, hdd, hs]

/-- C2 witness. -/
theorem updateTask_empty_fields_error_witness :
    UpdateTask { docs := [] } "000000000000000000000001"
        { id := 0, title := "", description := "", dueDate := 0, status := "" } =
      ({ docs := [] }, .error .noFieldsProvided) := by
  exact updateTask_empty_fields_error { docs := [] } "000000000000000000000001" 1
    { id := 0, title := "", description := "", dueDate := 0, status := "" }
    (by decide) rfl rfl rfl rfl

/-- C9: for a well-formed id, an all-empty update fails with
`NoFieldsProvided` without consulting the store: even when the id
resolves to no stored task, the result is `NoFieldsProvided`, not
`TaskNotFound`, and the store is untouched. -/
theorem updateTask_noFields_precedence (col : TaskCollection) (taskID : String)
    (oid : ObjectID) (taskUpdate : Task)
    (hhex : ObjectIDFromHex taskID = some oid)
    (_habsent : findDoc col.docs oid = none)
    (ht : taskUpdate.title = "") (hd : taskUpdate.description = "")
    (hdd : taskUpdate.dueDate = 0) (hs : taskUpdate.status = "") :
    UpdateTask col taskID taskUpdate = (col, .error .noFieldsProvided) ∧
    (UpdateTask col taskID taskUpdate).2 ≠ .error .taskNotFound := by
  have hmain :
      UpdateTask col taskID taskUpdate = (col, .error .noFieldsProvided) := by
    simp [UpdateTask, hhex, buildSetFields, TaskSetFields.isEmpty, ht, hd, hdd, hs]
  refine ⟨hmain, ?_⟩
  rw [hmain]
  simp

/-- C1: on a successful update (well-formed id resolving to a stored task,
at least one field provided), each of the four fields of the stored task
is overwritten exactly when the corresponding update field is
non-empty/non-zero, and both the returned record and the stored record
are the fully merged post-update record `specMerge`. -/
theorem updateTask_merge_semantics (col : TaskCollection) (taskID : String)
    (oid : ObjectID) (t taskUpdate : Task)
    (hhex : ObjectIDFromHex taskID = some oid)
    (hfind : findDoc col.docs oid = some t)
    (hne : (buildSetFields taskUpdate).isEmpty = false) :
    (UpdateTask col taskID taskUpdate).2 = .ok (specMerge t taskUpdate) ∧
    findDoc (UpdateTask col taskID taskUpdate).1.docs oid =
      some (specMerge t taskUpdate) := by
  obtain ⟨docs2, h1, h2⟩ :=
    updateDoc_of_findDoc col.docs oid (buildSetFields taskUpdate) t hfind
  rw [applySet_buildSetFields] at h1 h2
  constructor
  · simp [UpdateTask, hhex, hne, h1]
  · simp [UpdateTask, hhex, hne, h1, h2]

/-- C1 witness: updating only the status of a stored task leaves its
title and description unchanged and merges in the new status. -/
theorem updateTask_merge_semantics_witness :
    ObjectIDFromHex "000000000000000000000001" = some 1 ∧
    findDoc [{ id := 1, title := "old", description := "olddesc", dueDate := 7,
               status := "pending" }] 1 =
      some { id := 1, title := "old", description := "olddesc", dueDate := 7,
             status := "pending" } ∧
    (UpdateTask
        { docs := [{ id := 1, title := "old", description := "olddesc", dueDate := 7,
                     status := "pending" }] }
        "000000000000000000000001"
        { id := 0, title := "", description := "", dueDate := 0,
          status := "completed" }).2 =
      .ok { id := 1, title := "old", description := "olddesc", dueDate := 7,
            status := "completed" } := by
  refine ⟨by decide, by decide, ?_⟩
  have h := (updateTask_merge_semantics
    { docs := [{ id := 1, title := "old", description := "olddesc", dueDate := 7,
                 status := "pending" }] }
    "000000000000000000000001" 1
    { id := 1, title := "old", description := "olddesc", dueDate := 7,
      status := "pending" }
    { id := 0, title := "", description := "", dueDate := 0, status := "completed" }
    (by decide) (by decide) (by decide)).1
  simpa [specMerge] using h

/-- C5: delete on a malformed identifier fails with `InvalidTaskID`; delete
on a well-formed id matching no stored task fails with `TaskNotFound`
(zero records removed) with the store unchanged; and after a successful
delete, `GetTaskByID` on the same id fails with `TaskNotFound`. -/
theorem deleteTask_error_handling (col : TaskCollection) (taskID : String) :
    (ObjectIDFromHex taskID = none →
       DeleteTask col taskID = (col, some .invalidTaskID)) ∧
    (∀ oid, ObjectIDFromHex taskID = some oid →
       (∀ t ∈ col.docs, t.id ≠ oid) →
       DeleteTask col taskID = (col, some .taskNotFound)) ∧
    ((col.docs.map Task.id).Nodup →
       ∀ col2, DeleteTask col taskID = (col2, none) →
       GetTaskByID col2 taskID = .error .taskNotFound) := by
  refine ⟨?_, ?_, ?_⟩
  · intro hhex
    simp [DeleteTask, hhex]
  · intro oid hhex hnone
    have hdel := deleteDoc_no_match col.docs oid hnone
    simp [DeleteTask, hhex, hdel]
  · intro hnodup col2 hsucc
    rcases hhex : ObjectIDFromHex taskID with _ | oid
    · simp [DeleteTask, hhex] at hsucc
    · rcases hdd : deleteDoc col.docs oid with ⟨docs2, cnt⟩
      simp only [DeleteTask, hhex, hdd] at hsucc
      by_cases hcnt : (cnt == 0) = true
      · rw [if_pos hcnt] at hsucc
        exact absurd (congrArg Prod.snd hsucc) (by simp)
      · rw [if_neg hcnt] at hsucc
        have hcol2 : ({ docs := docs2 } : TaskCollection) = col2 :=
          (Prod.ext_iff.mp hsucc).1
        rw [← hcol2]
        have hfd : findDoc docs2 oid = none := by
          have hfd0 := findDoc_deleteDoc col.docs oid hnodup
          rwa [hdd] at hfd0
        simp [GetTaskByID, hhex, hfd]

/-- C5 witness. -/
theorem deleteTask_error_handling_witness :
    DeleteTask { docs := [{ id := 1, title := "x", description := "",
                            dueDate := 0, status := "pending" }] } "zz" =
      ({ docs := [{ id := 1, title := "x", description := "", dueDate := 0,
                    status := "pending" }] }, some .invalidTaskID) ∧
    DeleteTask { docs := [{ id := 1, title := "x", description := "",
                            dueDate := 0, status := "pending" }] }
        "000000000000000000000002" =
      ({ docs := [{ id := 1, title := "x", description := "", dueDate := 0,
                    status := "pending" }] }, some .taskNotFound) ∧
    GetTaskByID { docs := [] } "000000000000000000000001" =
      .error .taskNotFound := by
  refine ⟨?_, ?_, ?_⟩
  · exact (deleteTask_error_handling
      { docs := [{ id := 1, title := "x", description := "", dueDate := 0,
                   status := "pending" }] } "zz").1 (by decide)
  · exact (deleteTask_error_handling
      { docs := [{ id := 1, title := "x", description := "", dueDate := 0,
                   status := "pending" }] } "000000000000000000000002").2.1 2
      (by decide) (by decide)
  · exact (deleteTask_error_handling
      { docs := [{ id := 1, title := "x", description := "", dueDate := 0,
                   status := "pending" }] } "000000000000000000000001").2.2
      (by decide) { docs := [] } (by decide)

/-- C9 witness. -/
theorem updateTask_noFields_precedence_witness :
    UpdateTask { docs := [] } "0000000000000000000000ff"
        { id := 0, title := "", description := "", dueDate := 0, status := "" } =
      ({ docs := [] }, .error .noFieldsProvided) := by
  exact (updateTask_noFields_precedence { docs := [] } "0000000000000000000000ff" 255
    { id := 0, title := "", description := "", dueDate := 0, status := "" }
    (by decide) rfl rfl rfl rfl rfl).1

/-- C3: when the salt and the derived digests are well-formed (no `$`
separator inside them, so the generated hash parses back) and the key
derivation is collision-free for the salt (the idealisation of bcrypt the
spec relies on), verifying a password against its own hash succeeds,
verifying any other password fails, and a malformed stored hash makes
verification return `false` rather than an error. -/
theorem checkPassword_roundtrip (kdf : String → String → String)
    (salt p q : String)
    (hparse : bcryptParse (HashPassword kdf salt p) = some (salt, kdf salt p))
    (hinj : ∀ a b : String, kdf salt a = kdf salt b → a = b)
    (hpq : q ≠ p) :
    CheckPassword kdf (HashPassword kdf salt p) p = true ∧
    CheckPassword kdf (HashPassword kdf salt p) q = false ∧
    ∀ h plain, bcryptParse h = none → CheckPassword kdf h plain = false := by
  refine ⟨?_, ?_, ?_⟩
  · simp [CheckPassword, bcryptCompare, hparse]
  · have hne : kdf salt q ≠ kdf salt p := fun he => hpq (hinj q p he)
    simp [CheckPassword, bcryptCompare, hparse, hne]
  · intro h plain hmal
    simp [CheckPassword, bcryptCompare, hmal]

/-- C3 witness: a concrete collision-free key derivation, salt and
password pair, plus a concrete malformed hash. -/
theorem checkPassword_roundtrip_witness :
    CheckPassword (fun _ w => w) (HashPassword (fun _ w => w) "somesalt" "pw123456")
        "pw123456" = true ∧
    CheckPassword (fun _ w => w) (HashPassword (fun _ w => w) "somesalt" "pw123456")
        "other" = false ∧
    CheckPassword (fun _ w => w) "garbage" "pw123456" = false := by
  have h := checkPassword_roundtrip (fun _ w => w) "somesalt" "pw123456" "other"
    (by decide) (fun a b hab => hab) (by decide)
  exact ⟨h.1, h.2.1, h.2.2 "garbage" "pw123456" (by decide)⟩

/-- C4: registering a username already present in the store fails with
`UserExists` (surfaced from the storage duplicate-key signal) and leaves
the store unchanged — no second record is created. -/
theorem createUser_duplicate_username (col : UserCollection) (freshID : ObjectID)
    (u v : User) (hv : v ∈ col.docs) (hname : v.username = u.username) :
    CreateUser col freshID u = (col, some .userExists) := by
  have hdup : ∀ w : User, w.username = u.username → dupKey col.docs w = true := by
    intro w hw
    refine List.any_eq_true.mpr ⟨v, hv, ?_⟩
    simp [hw, hname]
  by_cases hz : u.id.isZero = true
  · have h1 := hdup { u with id := freshID } rfl
    simp [CreateUser, hz, h1]
  · have h1 := hdup u rfl
    simp [CreateUser, hz, h1]

/-- C4 witness. -/
theorem createUser_duplicate_username_witness :
    CreateUser
        { docs := [{ id := 1, username := "alice", password := "h", role := "admin" }] }
        2 { id := 0, username := "alice", password := "h2", role := "user" } =
      ({ docs := [{ id := 1, username := "alice", password := "h", role := "admin" }] },
       some .userExists) := by
  exact createUser_duplicate_username
    { docs := [{ id := 1, username := "alice", password := "h", role := "admin" }] }
    2 { id := 0, username := "alice", password := "h2", role := "user" }
    { id := 1, username := "alice", password := "h", role := "admin" }
    (by decide) rfl

/-- C7: task creation assigns the fresh identity regardless of any
caller-supplied id, validates `status` against the three allowed values
when provided, persists the record, and returns the stored form carrying
the assigned identity. -/
theorem createTask_fresh_id_and_status (col : TaskCollection) (fid : ObjectID)
    (task : Task) :
    (task.status = "" ∨ validStatus task.status = true →
       UseCaseCreateTask col fid task =
         ({ docs := col.docs ++ [{ task with id := fid }] },
          .ok { task with id := fid })) ∧
    (task.status ≠ "" → validStatus task.status = false →
       UseCaseCreateTask col fid task = (col, .error .invalidStatus)) := by
  constructor
  · rintro (hs | hs)
    · simp [UseCaseCreateTask, CreateTask, hs, validStatus]
    · simp [UseCaseCreateTask, CreateTask, hs]
  · intro hne hbad
    simp [UseCaseCreateTask, hne, hbad]

/-- C7 witness: a caller-supplied id is replaced by the fresh identity,
and an invalid status is rejected. -/
theorem createTask_fresh_id_and_status_witness :
    UseCaseCreateTask { docs := [] } 9
        { id := 5, title := "x", description := "", dueDate := 0,
          status := "pending" } =
      ({ docs := [{ id := 9, title := "x", description := "", dueDate := 0,
                    status := "pending" }] },
       .ok { id := 9, title := "x", description := "", dueDate := 0,
             status := "pending" }) ∧
    UseCaseCreateTask { docs := [] } 9
        { id := 5, title := "x", description := "", dueDate := 0,
          status := "done" } = ({ docs := [] }, .error .invalidStatus) := by
  constructor
  · exact (createTask_fresh_id_and_status { docs := [] } 9
      { id := 5, title := "x", description := "", dueDate := 0,
        status := "pending" }).1 (Or.inr (by decide))
  · exact (createTask_fresh_id_and_status { docs := [] } 9
      { id := 5, title := "x", description := "", dueDate := 0,
        status := "done" }).2 (by decide) (by decide)

/-- C10: user creation preserves a caller-supplied non-zero id as the
stored identity and generates the fresh id only when the supplied id is
the zero value — unlike task creation, which stores the fresh id no
matter what the caller supplied. -/
theorem createUser_id_preservation (col : UserCollection) (fid : ObjectID)
    (u : User) (tcol : TaskCollection) (t : Task) :
    (u.id ≠ 0 → dupKey col.docs u = false →
       CreateUser col fid u = ({ docs := col.docs ++ [u] }, none)) ∧
    (u.id = 0 → dupKey col.docs { u with id := fid } = false →
       CreateUser col fid u =
         ({ docs := col.docs ++ [{ u with id := fid }] }, none)) ∧
    (CreateTask tcol fid t).2.id = fid := by
  refine ⟨?_, ?_, rfl⟩
  · intro hnz hdup
    have hz : u.id.isZero = false := by
      simp [ObjectID.isZero, hnz]
    simp [CreateUser, hz, hdup]
  · intro hz0 hdup
    have hz : u.id.isZero = true := by
      simp [ObjectID.isZero, hz0]
    simp [CreateUser, hz, hdup]

/-- C10 witness. -/
theorem createUser_id_preservation_witness :
    CreateUser { docs := [] } 7
        { id := 3, username := "bob", password := "h", role := "user" } =
      ({ docs := [{ id := 3, username := "bob", password := "h", role := "user" }] },
       none) ∧
    CreateUser { docs := [] } 7
        { id := 0, username := "bob", password := "h", role := "user" } =
      ({ docs := [{ id := 7, username := "bob", password := "h", role := "user" }] },
       none) ∧
    (CreateTask { docs := [] } 7
        { id := 3, title := "x", description := "", dueDate := 0,
          status := "pending" }).2.id = 7 := by
  refine ⟨?_, ?_, ?_⟩
  · exact (createUser_id_preservation { docs := [] } 7
      { id := 3, username := "bob", password := "h", role := "user" }
      { docs := [] }
      { id := 3, title := "x", description := "", dueDate := 0,
        status := "pending" }).1 (by decide) (by decide)
  · exact (createUser_id_preservation { docs := [] } 7
      { id := 0, username := "bob", password := "h", role := "user" }
      { docs := [] }
      { id := 3, title := "x", description := "", dueDate := 0,
        status := "pending" }).2.1 rfl (by decide)
  · exact (createUser_id_preservation { docs := [] } 7
      { id := 3, username := "bob", password := "h", role := "user" }
      { docs := [] }
      { id := 3, title := "x", description := "", dueDate := 0,
        status := "pending" }).2.2

end TaskMgmt
